import Mathlib

/-!
Shallow embedding of the ChatSavePro capture/session/storage engine and
proofs about its specified behaviour.

The embedding follows the JavaScript sources:
* `modules/IndexedDBManager.js` (validation, sanitisation, duplicate check,
  fallback store, maintenance sweep),
* `LiveScanManager.js` in `popup.js` (sessions, buffering, flushing),
* `contentScript.js` (`generateMessageId`) and `DeepScan.js`
  (snapshot, checksum, message extraction),
* `ScanSystem.js` and `DeepScanCoordinator.js` (merge statistics),
* `modules/StorageManager.js` (cached read path).

Host environment effects (IndexedDB request outcomes, chrome.storage
outcomes, the DOM, `Date.now()`, `Math.random()`) are passed in as explicit
values, so every function is pure and executable.
-/

namespace ChatSavePro

/-! ## Scan records (IndexedDBManager.js)

One stored scan record.  Only the fields the manager itself reads are
modelled; the JSON length of the full record is carried as `jsonLen`
(standing for `JSON.stringify(record).length`, whose remaining payload is
not otherwise inspected by the manager). -/

structure Scan where
  id : String
  url : String
  title : String
  platform : String
  timestamp : Nat
  jsonLen : Nat
deriving Repr, DecidableEq

/-- Ordering used by the timestamp index (ascending key order). -/
def tsLe (a b : Scan) : Prop := a.timestamp ≤ b.timestamp

/-- Ordering produced by the comparator `(a, b) => b.timestamp - a.timestamp`. -/
def tsGe (a b : Scan) : Prop := b.timestamp ≤ a.timestamp

instance : DecidableRel tsLe := fun a b => Nat.decLe a.timestamp b.timestamp

instance : DecidableRel tsGe := fun a b => Nat.decLe b.timestamp a.timestamp

instance : IsTotal Scan tsLe := ⟨fun a b => Nat.le_total a.timestamp b.timestamp⟩

instance : IsTrans Scan tsLe := ⟨fun _ _ _ h h2 => Nat.le_trans h h2⟩

instance : IsTotal Scan tsGe := ⟨fun a b => (Nat.le_total b.timestamp a.timestamp)⟩

instance : IsTrans Scan tsGe := ⟨fun _ _ _ h h2 => Nat.le_trans h2 h⟩

/-- Stable ascending sort by timestamp, as delivered by `index('timestamp').getAll()`. -/
def sortTsAsc (l : List Scan) : List Scan := l.insertionSort tsLe

/-- Stable descending sort by timestamp, as done by `.sort((a, b) => b.timestamp - a.timestamp)`. -/
def sortTsDesc (l : List Scan) : List Scan := l.insertionSort tsGe

/-- Size cap from `ScanValidator.validateScanData` (5MB per scan). -/
def FIVE_MB : Nat := 5 * 1024 * 1024

/-- ScanValidator.validateScanData: the record must carry a url or a title
(JS truthiness: the empty string is falsy) and serialise to at most 5MB. -/
def validateScanData (d : Scan) : Bool :=
  (d.url != "" || d.title != "") && decide (d.jsonLen ≤ FIVE_MB)

/-- ScanValidator.generateScanId: `scan_${Date.now()}_${random36}`. -/
def generateScanId (now : Nat) (rnd : String) : String :=
  "scan_" ++ toString now ++ "_" ++ rnd

/-- ScanValidator.sanitizeScanData: fill a falsy id and timestamp with
generated defaults (`sanitized.id = sanitized.id || generateScanId()`,
`sanitized.timestamp = sanitized.timestamp || Date.now()`); the
credential-field stripping touches fields outside the modelled record. -/
def sanitizeScanData (d : Scan) (now : Nat) (rnd : String) : Scan :=
  { d with
    id := if d.id = "" then generateScanId now rnd else d.id,
    timestamp := if d.timestamp = 0 then now else d.timestamp }

/-! ## Title similarity and duplicate detection -/

/-- Helper for `String.prototype.split(/\s+/)`: splits on maximal runs of
whitespace, keeping the leading and trailing empty segments JavaScript
produces.  The first argument is structural fuel; starting it at the
length of the character list makes the fuel-exhausted branch unreachable
(each step consumes at least one character). -/
def jsSplitWsGo : Nat → List Char → List Char → List String → List String
  | _, [], cur, acc => acc ++ [String.mk cur]
  | 0, _ :: _, cur, acc => acc ++ [String.mk cur]
  | fuel + 1, c :: rest, cur, acc =>
    if c.isWhitespace then
      jsSplitWsGo fuel (rest.dropWhile Char.isWhitespace) [] (acc ++ [String.mk cur])
    else
      jsSplitWsGo fuel rest (cur ++ [c]) acc

/-- JavaScript `str.split(/\s+/)`. -/
def jsSplitWs (s : String) : List String := jsSplitWsGo s.data.length s.data [] []

/-- JavaScript `str.toLowerCase()` (character-wise lowering; the modelled
inputs are ASCII). -/
def jsToLower (s : String) : String := String.mk (s.data.map Char.toLower)

/-- IndexedDBManager.calculateSimilarity: Jaccard overlap of the lowercase
whitespace-token sets of the two strings. -/
def calculateSimilarity (s1 s2 : String) : ℚ :=
  let set1 := (jsSplitWs (jsToLower s1)).dedup
  let set2 := (jsSplitWs (jsToLower s2)).dedup
  let intersection := set1.filter (fun t => set2.contains t)
  let union := set1 ++ set2.filter (fun t => !set1.contains t)
  (intersection.length : ℚ) / (union.length : ℚ)

/-- IndexedDBManager.isSubstantialDuplicate: different urls are never
duplicates; when both titles are present (truthy) the verdict is
`similarity > 0.8`; otherwise the records are considered duplicates. -/
def isSubstantialDuplicate (exist cand : Scan) : Bool :=
  if exist.url ≠ cand.url then false
  else if exist.title ≠ "" ∧ cand.title ≠ "" then
    decide (calculateSimilarity exist.title cand.title > 8 / 10)
  else true

/-- Deduplication window from `DUPLICATE_TTL_MS` (30 minutes). -/
def DUPLICATE_TTL_MS : Nat := 30 * 60 * 1000

/-- IndexedDBManager.getScansByUrl: records whose url index key equals
`url`, sorted newest first, limited. -/
def getScansByUrl (store : List Scan) (url : String) (limit : Nat) : List Scan :=
  (sortTsDesc (store.filter (fun s => s.url == url))).take limit

/-- IndexedDBManager.checkForDuplicate: among the 5 most recent records
with the same url, return the id of the first one written less than 30
minutes ago that is a substantial duplicate. -/
def checkForDuplicate (store : List Scan) (cand : Scan) (now : Nat) : Option String :=
  if cand.url = "" then none
  else
    let recent := getScansByUrl store cand.url 5
    (recent.find? (fun s =>
      decide ((now : ℤ) - (s.timestamp : ℤ) < (DUPLICATE_TTL_MS : ℤ)) &&
        isSubstantialDuplicate s cand)).map Scan.id

/-! ## Queries and maintenance -/

/-- Substring test used for the query filter (`String.prototype.includes`). -/
def containsSub (s q : String) : Bool := decide (q.data <:+: s.data)

/-- Query filter of IndexedDBManager.getScans: a truthy field matches when
it contains the lowercase query (the unmodelled `snippet` field is treated
as absent). -/
def matchesQuery (q : String) (s : Scan) : Bool :=
  (s.title != "" && containsSub (jsToLower s.title) (jsToLower q)) ||
  (s.url != "" && containsSub (jsToLower s.url) (jsToLower q)) ||
  (s.platform != "" && containsSub (jsToLower s.platform) (jsToLower q))

/-- Result shaping of IndexedDBManager.getScans on a successful
`getAll()`: filter by the query (a falsy query skips the filter), sort
newest first, then `slice(offset, offset + limit)`. -/
def getScansResult (scans : List Scan) (q : String) (limit offset : Nat) : List Scan :=
  ((sortTsDesc (if q = "" then scans else scans.filter (matchesQuery q))).drop offset).take
    limit

/-- IndexedDBManager.estimateDBSize:
`JSON.stringify(await this.getScans('', 1000)).length`; the per-record JSON
length is the jsonLen field and the list punctuation is not counted. -/
def estimateDBSize (store : List Scan) : Nat :=
  ((getScansResult store "" 1000 0).map Scan.jsonLen).sum

/-- Record-count threshold `CLEANUP_THRESHOLD`. -/
def CLEANUP_THRESHOLD : Nat := 1000

/-- Size ceiling `MAX_DB_SIZE` (50MB). -/
def MAX_DB_SIZE : Nat := 50 * 1024 * 1024

/-- Count of records kept by a sweep: `Math.floor(scans.length * (1 - ratio))`. -/
def cleanupKeepCount (n : Nat) (ratio : ℚ) : Nat := (⌊(n : ℚ) * (1 - ratio)⌋).toNat

/-- IndexedDBManager.cleanupOldRecords: reads all records in ascending
timestamp-index order, returns unchanged when at most
`CLEANUP_THRESHOLD * 0.5` records exist, and otherwise deletes by id the
records in `scans.slice(keepCount)` — the suffix of the ascending list.
Returns the new store and the number of deleted records. -/
def cleanupOldRecords (store : List Scan) (ratio : ℚ) : List Scan × Nat :=
  if (sortTsAsc store).length ≤ CLEANUP_THRESHOLD / 2 then (store, 0)
  else
    (store.filter (fun s =>
        !((((sortTsAsc store).drop (cleanupKeepCount (sortTsAsc store).length ratio)).map
            Scan.id).contains s.id)),
      ((sortTsAsc store).drop (cleanupKeepCount (sortTsAsc store).length ratio)).length)

/-- Store contents after the count-triggered part of the maintenance
sweep. -/
def maintStep1 (store : List Scan) : List Scan :=
  if store.length > CLEANUP_THRESHOLD then (cleanupOldRecords store (3 / 10)).1 else store

/-- IndexedDBManager.performMaintenance: when the record count exceeds
`CLEANUP_THRESHOLD`, sweep with the default ratio 0.3; then, when the
estimated size exceeds 80 percent of `MAX_DB_SIZE`, sweep again with
ratio 0.5. -/
def performMaintenance (store : List Scan) : List Scan :=
  if estimateDBSize (maintStep1 store) > MAX_DB_SIZE * 4 / 5 then
    (cleanupOldRecords (maintStep1 store) (1 / 2)).1
  else maintStep1 store

/-! ## Manager state, fallback store, write path -/

/-- Error taxonomy surfaced by the manager (`DBError` instances). -/
inductive DBErr where
  | validation
  | storage
deriving Repr, DecidableEq

/-- Fallback retention cap (`slice(0, 500)`). -/
def FALLBACK_CAP : Nat := 500

/-- ChromeStorageFallback.storeScan: sanitise, push, re-sort newest first,
keep the newest 500, return the new id.  No duplicate check is performed. -/
def fallbackStoreScan (scans : List Scan) (d : Scan) (now : Nat) (rnd : String) :
    String × List Scan :=
  let san := sanitizeScanData d now rnd
  (san.id, (sortTsDesc (scans ++ [san])).take FALLBACK_CAP)

/-- Mutable state of IndexedDBManager: the active-backend flag and the two
backing stores. -/
structure MgrState where
  useFallback : Bool
  primary : List Scan
  fallback : List Scan
deriving Repr, DecidableEq

/-- Insert into the primary store and run the post-write maintenance pass,
as `storeScan` does after `insertScan`. -/
def insertThenMaintain (store : List Scan) (san : Scan) : List Scan :=
  performMaintenance (store ++ [san])

/-- IndexedDBManager.storeScan: validate, route to the fallback store when
engaged, otherwise check for a recent duplicate (returning the existing id
without writing), else sanitise, insert and run maintenance.  The primary
insert itself succeeding is part of the healthy-environment model; the
on-insert-failure fallback switch is exercised through `managerInit`. -/
def storeScan (st : MgrState) (d : Scan) (now : Nat) (rnd : String) :
    Except DBErr (String × MgrState) :=
  if validateScanData d = false then .error .validation
  else if st.useFallback then
    let r := fallbackStoreScan st.fallback d now rnd
    .ok (r.1, { st with fallback := r.2 })
  else
    match checkForDuplicate st.primary d now with
    | some dupId => .ok (dupId, st)
    | none =>
      let san := sanitizeScanData d now rnd
      .ok (san.id, { st with primary := insertThenMaintain st.primary san })

/-- Outcome of the `indexedDB.open` request, including the 10-second
timeout branch of `openDatabase`. -/
inductive OpenOutcome where
  | success
  | failure
  | timeout
deriving Repr, DecidableEq

/-- IndexedDBManager._initialize: a successful open leaves the primary
backend active; an open failure or timeout initialises the Chrome-storage
fallback and sets `useFallback = true` (nothing resets the flag except a
fresh initialisation). -/
def managerInit (o : OpenOutcome) : MgrState :=
  match o with
  | .success => { useFallback := false, primary := [], fallback := [] }
  | .failure => { useFallback := true, primary := [], fallback := [] }
  | .timeout => { useFallback := true, primary := [], fallback := [] }

/-- IndexedDBManager.isUsingFallback. -/
def isUsingFallback (st : MgrState) : Bool := st.useFallback

/-- IndexedDBManager.getScans, primary path: the outcome of the
`index('timestamp').getAll()` request is passed in; a request error is
re-raised to the caller as a `DBError`, a successful result is filtered,
sorted and paginated. -/
def getScansPrimary (qres : Except DBErr (List Scan)) (q : String) (limit offset : Nat) :
    Except DBErr (List Scan) :=
  match qres with
  | .error e => .error e
  | .ok scans => .ok (getScansResult scans q limit offset)

/-! ## StorageManager.js read path -/

/-- Insert-or-overwrite for the in-memory cache (`cache.set(key, value)`). -/
def cacheUpsert (c : List (String × String)) (kv : String × String) :
    List (String × String) :=
  if c.any (fun p => p.1 == kv.1) then
    c.map (fun p => if p.1 == kv.1 then kv else p)
  else c ++ [kv]

/-- StorageManager.getAll: on a successful `chrome.storage.local.get` the
items are returned and folded into the cache; on a failed read the cached
entries are returned instead and the cache is left unchanged.  The function
returns the caller-visible items and the new cache, and never fails. -/
def storageGetAll (backend : Except String (List (String × String)))
    (cache : List (String × String)) :
    List (String × String) × List (String × String) :=
  match backend with
  | .ok items => (items, items.foldl cacheUpsert cache)
  | .error _ => (cache, cache)

/-! ## LiveScanManager (popup.js): sessions, buffering, flushing

The model covers one tab.  The maps `sessions` and `messageBuffer` become
`Option`-valued slots (a `none` slot is a deleted map entry), the content
script of the tab is represented by its `liveScanActive` flag, chunks
handed to `storeChunk` are accumulated in `flushed`, and the session record
persisted by `saveSessionState` lives in `savedSession`. -/

/-- Session status strings used by LiveScanManager. -/
inductive SessStatus where
  | active
  | stopped
  | expired
deriving Repr, DecidableEq

/-- One entry of `this.sessions`. -/
structure Session where
  sessionId : Nat
  startTime : Nat
  messageCount : Nat
  lastActivity : Nat
  status : SessStatus
deriving Repr, DecidableEq

/-- LiveScanManager state for one tab (`α` is the message payload type). -/
structure LSMState (α : Type) where
  contentActive : Bool
  session : Option Session
  buffer : Option (List α)
  flushed : List (List α)
  savedSession : Option Session
deriving Repr, DecidableEq

/-- Buffer flush threshold `config.maxBufferSize`. -/
def MAX_BUFFER : Nat := 50

/-- Idle-session window of `cleanupInactiveSessions` (5 minutes). -/
def MAX_INACTIVE_MS : Nat := 5 * 60 * 1000

/-- Stale-session cutoff of `restoreSessions` (1 hour). -/
def SESSION_MAX_AGE_MS : Nat := 60 * 60 * 1000

/-- LiveScanManager.flushBuffer: no-op without a non-empty buffer and a
session; otherwise hand the buffered messages to `storeChunk` and clear the
buffer. -/
def flushBuffer {α : Type} (st : LSMState α) : LSMState α :=
  match st.buffer, st.session with
  | some buf, some _ =>
    if buf.isEmpty then st
    else { st with flushed := st.flushed ++ [buf], buffer := some [] }
  | _, _ => st

/-- LiveScanManager.bufferMessages: append the incoming messages (creating
the buffer slot when missing) and flush once the buffer holds at least
`maxBufferSize` messages. -/
def bufferMessages {α : Type} (st : LSMState α) (msgs : List α) : LSMState α :=
  if ((st.buffer.getD []) ++ msgs).length ≥ MAX_BUFFER then
    flushBuffer { st with buffer := some ((st.buffer.getD []) ++ msgs) }
  else { st with buffer := some ((st.buffer.getD []) ++ msgs) }

/-- Session with the activity fields refreshed by an incoming batch
(`session.lastActivity = Date.now()`,
`session.messageCount += data.messages.length`). -/
def refreshedSession (s : Session) (count now : Nat) : Session :=
  { s with lastActivity := now, messageCount := s.messageCount + count }

/-- LiveScanManager.handleLiveScanData: ignored without an active session;
otherwise refresh activity, count the messages, buffer them, and persist
the session state every 10th message. -/
def handleLiveScanData {α : Type} (st : LSMState α) (msgs : List α) (now : Nat) :
    LSMState α :=
  match st.session with
  | some s =>
    if s.status = .active then
      if (refreshedSession s msgs.length now).messageCount % 10 = 0 then
        { bufferMessages { st with session := some (refreshedSession s msgs.length now) } msgs
            with savedSession := some (refreshedSession s msgs.length now) }
      else
        bufferMessages { st with session := some (refreshedSession s msgs.length now) } msgs
    else st
  | none => st

/-- LiveScanManager.startMonitoring: the content script acknowledges
`START_LIVE_SCAN` (setting its `liveScanActive` flag), a fresh ACTIVE
session is stored for the tab, and an empty buffer is installed.  Returns
the new state and the success flag. -/
def startMonitoring {α : Type} (st : LSMState α) (now sid : Nat) : LSMState α × Bool :=
  ({ st with
      contentActive := true,
      session := some
        { sessionId := sid, startTime := now, messageCount := 0,
          lastActivity := now, status := .active },
      buffer := some ([] : List α) }, true)

/-- LiveScanManager.cleanupSession: when a session exists, flush the
remaining buffer, persist the session with status STOPPED, and delete the
session and buffer slots.  Without a session this is a no-op. -/
def cleanupSession {α : Type} (st : LSMState α) : LSMState α :=
  match st.session with
  | some s =>
    let st1 := flushBuffer st
    { st1 with
      savedSession := some { s with status := .stopped },
      session := none,
      buffer := none }
  | none => st

/-- Result shape of LiveScanManager.stopMonitoring. -/
structure StopResult where
  success : Bool
deriving Repr, DecidableEq

/-- LiveScanManager.stopMonitoring: sends STOP_LIVE_SCAN (the content
script unconditionally clears `liveScanActive` and replies
`{success: true}`), runs `cleanupSession`, and returns `{success: true}`
whether or not a session existed. -/
def stopMonitoring {α : Type} (st : LSMState α) : LSMState α × StopResult :=
  (cleanupSession { st with contentActive := false }, { success := true })

/-- LiveScanManager.cleanupInactiveSessions: an ACTIVE session idle for
more than 5 minutes is cleaned up (which records it as STOPPED). -/
def cleanupInactiveSessions {α : Type} (st : LSMState α) (now : Nat) : LSMState α :=
  match st.session with
  | some s =>
    if s.status = .active ∧ now - s.lastActivity > MAX_INACTIVE_MS then cleanupSession st
    else st
  | none => st

/-- LiveScanManager.restoreSessions: a persisted ACTIVE session younger
than 1 hour is reloaded with a fresh empty buffer; a stale one is rewritten
as EXPIRED and not resumed. -/
def restoreSessions {α : Type} (st : LSMState α) (now : Nat) : LSMState α :=
  match st.savedSession with
  | some s =>
    if s.status = .active then
      if now - s.lastActivity < SESSION_MAX_AGE_MS then
        { st with session := some s, buffer := some ([] : List α) }
      else
        { st with savedSession := some { s with status := .expired } }
    else st
  | none => st

/-- Events driving the per-tab session lifecycle. -/
inductive LSEvent (α : Type) where
  | start (now sid : Nat)
  | dataBatch (msgs : List α) (now : Nat)
  | stop
  | idleSweep (now : Nat)
  | restore (now : Nat)

/-- One lifecycle step of the session manager. -/
def lsmStep {α : Type} (st : LSMState α) (e : LSEvent α) : LSMState α :=
  match e with
  | .start now sid => (startMonitoring st now sid).1
  | .dataBatch msgs now => handleLiveScanData st msgs now
  | .stop => (stopMonitoring st).1
  | .idleSweep now => cleanupInactiveSessions st now
  | .restore now => restoreSessions st now

/-- Status of the in-memory session of the tab, if any. -/
def sessionStatus {α : Type} (st : LSMState α) : Option SessStatus :=
  st.session.map Session.status

/-- Empty manager state for a fresh tab. -/
def lsm0 : LSMState Nat :=
  { contentActive := false, session := none, buffer := none, flushed := [],
    savedSession := none }

/-! ## contentScript.js: generateMessageId -/

/-- JavaScript `ToInt32`: wrap an integer into `[-2^31, 2^31)`. -/
def toInt32 (n : ℤ) : ℤ := (n + 2 ^ 31) % 2 ^ 32 - 2 ^ 31

/-- One step of the rolling hash: `hash = ((hash << 5) - hash) + char`
followed by `hash = hash & hash`; `(h << 5) - h` equals `31 * h` modulo
`2^32`, and the bitwise and wraps the sum to a signed 32-bit value. -/
def hashStep (h : ℤ) (c : Nat) : ℤ := toInt32 (h * 31 + c)

/-- The 32-bit rolling hash over the UTF-16 code units of a string (the
modelled inputs are ASCII, where code units and code points agree). -/
def hashString (s : String) : ℤ := s.data.foldl (fun h ch => hashStep h ch.toNat) 0

/-- Digit characters of `Number.prototype.toString(36)`. -/
def digit36 (n : Nat) : Char :=
  if n < 10 then Char.ofNat (48 + n) else Char.ofNat (87 + n)

/-- Helper for base-36 rendering.  The first argument is structural fuel;
starting it at `n` makes the fuel-exhausted branch unreachable (the value
shrinks by a factor of 36 each step). -/
def toBase36Go : Nat → Nat → List Char → List Char
  | _, 0, acc => digit36 0 :: acc
  | 0, n + 1, acc => digit36 ((n + 1) % 36) :: acc
  | fuel + 1, n + 1, acc =>
    if n + 1 < 36 then digit36 (n + 1) :: acc
    else toBase36Go fuel ((n + 1) / 36) (digit36 ((n + 1) % 36) :: acc)

/-- JavaScript `n.toString(36)` for a natural number. -/
def toBase36 (n : Nat) : String := String.mk (toBase36Go n n [])

/-- ChatSaveContentScript.getElementPosition:
`${Math.round(rect.top)}_${Math.round(rect.left)}` with the rounded
coordinates passed in. -/
def elementPositionStr (top left : ℤ) : String := toString top ++ "_" ++ toString left

/-- ChatSaveContentScript.generateMessageId: hash the string
`content.substring(0, 50) + "_" + position + "_" + platform` and render
`msg_` + base-36 absolute hash + `_` + base-36 `Date.now()`. -/
def generateMessageId (content position platform : String) (now : Nat) : String :=
  let str := content.take 50 ++ "_" ++ position ++ "_" ++ platform
  "msg_" ++ toBase36 (hashString str).natAbs ++ "_" ++ toBase36 now

/-! ## DeepScan.js: snapshot, checksum, message extraction

The DOM is an input: a page is a list of elements, each carrying the
observable attributes the scanner reads (text, geometry, visibility, the
CSS selectors the element matches, timestamp hints).  DOM-walk metrics of
`analyzeDOMStructure` that do not depend on per-element data
(`calculateDOMDepth`, `findScrollableContainers`) are carried as page
attributes. -/

/-- Observable attributes of one DOM element. -/
structure PageElem where
  tagName : String
  className : String
  idAttr : String
  text : String
  childCount : Nat
  attrs : List (String × String)
  posTop : ℤ
  posLeft : ℤ
  width : Nat
  height : Nat
  inViewport : Bool
  visible : Bool
  matchesSel : List String
  timeAttr : Option String
  hasMedia : Bool
  userName : Option String
  hasScroll : Bool
  elemDepth : Nat
deriving Repr, DecidableEq

/-- Observable page state. -/
structure Page where
  url : String
  title : String
  hostname : String
  metaAppName : Option String
  elems : List PageElem
  domDepth : Nat
  scrollableCount : Nat
deriving Repr, DecidableEq

/-- The `document.querySelectorAll(sel)` of the model: elements matching
the selector, in document order. -/
def querySelAll (p : Page) (sel : String) : List PageElem :=
  p.elems.filter (fun e => e.matchesSel.contains sel)

/-- Chat selectors of DeepScan.captureDOMSnapshot. -/
def deepChatSelectors : List String :=
  ["[class*=\"chat\"]", "[class*=\"message\"]", "[class*=\"msg\"]",
   "[class*=\"conversation\"]", "[class*=\"discussion\"]",
   ".message", ".chat", ".msg", ".conversation",
   "[role=\"log\"]", "[aria-live=\"polite\"]",
   "[data-testid*=\"message\"]", "[aria-label*=\"message\"]"]

/-- Input selectors of DeepScan.captureDOMSnapshot. -/
def deepInputSelectors : List String :=
  ["[contenteditable=\"true\"]", "[role=\"textbox\"]", "textarea", "input[type=\"text\"]"]

/-- Media selectors of DeepScan.captureDOMSnapshot. -/
def deepMediaSelectors : List String := ["img", "video", "audio"]

/-- Message selectors of DeepScan.extractMessages. -/
def deepMessageSelectors : List String :=
  ["[class*=\"message\"]", "[class*=\"msg\"]", ".message", ".msg",
   "[role=\"listitem\"]", "[data-testid*=\"message\"]", "[aria-label*=\"message\"]"]

/-- Container selectors of DeepScan.findChatContainers. -/
def chatContainerSelectors : List String :=
  ["[class*=\"chat\"]", "[class*=\"message\"]", "[class*=\"conversation\"]", "[role=\"log\"]"]

/-- Element descriptor built by DeepScan.createElementInfo. -/
structure ElementInfo where
  selector : String
  tagName : String
  className : String
  idAttr : String
  text : String
  children : Nat
  attrs : List (String × String)
  posTop : ℤ
  posLeft : ℤ
  width : Nat
  height : Nat
  inViewport : Bool
  visible : Bool
deriving Repr, DecidableEq

/-- DeepScan.createElementInfo. -/
def createElementInfo (e : PageElem) (sel : String) : ElementInfo :=
  { selector := sel, tagName := e.tagName, className := e.className,
    idAttr := e.idAttr, text := e.text.take 200, children := e.childCount,
    attrs := e.attrs, posTop := e.posTop, posLeft := e.posLeft,
    width := e.width, height := e.height, inViewport := e.inViewport,
    visible := e.visible }

/-- Container descriptor of DeepScan.findChatContainers. -/
structure ContainerInfo where
  selector : String
  childCount : Nat
  hasScroll : Bool
  depth : Nat
deriving Repr, DecidableEq

/-- DeepScan.findChatContainers: visible elements with children matching
the container selectors. -/
def findChatContainers (p : Page) : List ContainerInfo :=
  chatContainerSelectors.flatMap (fun sel =>
    ((querySelAll p sel).filter (fun e => e.visible && decide (0 < e.childCount))).map
      (fun e =>
        { selector := sel, childCount := e.childCount, hasScroll := e.hasScroll,
          depth := e.elemDepth }))

/-- Result of DeepScan.analyzeDOMStructure. -/
structure DomStructure where
  depth : Nat
  chatContainers : Nat
  hasMultipleChats : Bool
  scrollableContainers : Nat
deriving Repr, DecidableEq

/-- DeepScan.analyzeDOMStructure. -/
def analyzeDOMStructure (p : Page) : DomStructure :=
  { depth := p.domDepth,
    chatContainers := (findChatContainers p).length,
    hasMultipleChats := decide (1 < (findChatContainers p).length),
    scrollableContainers := min p.scrollableCount 10 }

/-- DOM snapshot of DeepScan.captureDOMSnapshot; the field named
`structure` in the source is `struct` here (`structure` is a Lean
keyword). -/
structure Snapshot where
  timestamp : Nat
  url : String
  title : String
  totalElements : Nat
  chatElements : List ElementInfo
  inputElements : List ElementInfo
  mediaElements : List ElementInfo
  struct : DomStructure
deriving Repr, DecidableEq

/-- Visible elements matching any of the given selectors, as element
descriptors, one per (selector, element) match. -/
def collectElements (p : Page) (sels : List String) : List ElementInfo :=
  sels.flatMap (fun sel =>
    ((querySelAll p sel).filter (fun e => e.visible)).map (fun e => createElementInfo e sel))

/-- DeepScan.captureDOMSnapshot: records `Date.now()` as the snapshot
timestamp, collects visible chat, input and media elements, counts them,
and attaches the structure analysis. -/
def captureDOMSnapshot (p : Page) (now : Nat) : Snapshot :=
  let chat := collectElements p deepChatSelectors
  let inputs := collectElements p deepInputSelectors
  let media := collectElements p deepMediaSelectors
  { timestamp := now, url := p.url, title := p.title,
    totalElements := chat.length + inputs.length + media.length,
    chatElements := chat, inputElements := inputs, mediaElements := media,
    struct := analyzeDOMStructure p }

/-- Deterministic stand-in for `new Date(ms).toISOString()`; only used as
an opaque timestamp string. -/
def isoString (now : Nat) : String := "iso_" ++ toString now

/-- Message record of DeepScan.extractMessages (the `context` object of
`extractMessageContext` is not read by any claim and is omitted). -/
structure DeepMessage where
  text : String
  originalLength : Nat
  element : String
  timestampStr : String
  hasMedia : Bool
  user : Option String
deriving Repr, DecidableEq

/-- Hard candidate cap `scanConfig.maxElements`. -/
def DEEP_MAX_ELEMENTS : Nat := 1000

/-- Text truncation `scanConfig.textLengthLimit`. -/
def DEEP_TEXT_LIMIT : Nat := 500

/-- DeepScan.extractMessages: for each message selector, each visible
element whose trimmed text is longer than 2 characters yields one message
record; an element matching several selectors yields one record per
selector.  The combined list is capped at `maxElements`. -/
def extractMessages (p : Page) (now : Nat) : List DeepMessage :=
  (deepMessageSelectors.flatMap (fun sel =>
    ((querySelAll p sel).filter (fun e => e.visible && decide (2 < e.text.length))).map
      (fun e =>
        { text := e.text.take DEEP_TEXT_LIMIT, originalLength := e.text.length,
          element := sel, timestampStr := e.timeAttr.getD (isoString now),
          hasMedia := e.hasMedia, user := e.userName }))).take DEEP_MAX_ELEMENTS

/-- Hostname table of DeepScan.detectPlatform. -/
def deepPlatformTable : List (String × String) :=
  [("web.telegram.org", "Telegram"), ("web.whatsapp.com", "WhatsApp"),
   ("messenger.com", "Messenger"), ("discord.com", "Discord"),
   ("chat.openai.com", "ChatGPT"), ("chat.deepseek.com", "DeepSeek"),
   ("slack.com", "Slack"), ("teams.microsoft.com", "Teams")]

/-- DeepScan.detectPlatform: hostname lookup, then the
`application-name` meta tag, then the generic default. -/
def detectPlatform (p : Page) : String :=
  match deepPlatformTable.find? (fun d => containsSub p.hostname d.1) with
  | some d => d.2
  | none =>
    match p.metaAppName with
    | some content =>
      if containsSub (jsToLower content) "telegram" then "Telegram"
      else if containsSub (jsToLower content) "whatsapp" then "WhatsApp"
      else if containsSub (jsToLower content) "discord" then "Discord"
      else "Web"
    | none => "Web"

/-- Key-value list rendered as a JSON object body. -/
def jsonPairs (ps : List (String × String)) : String :=
  "\x7b" ++ String.intercalate "," (ps.map (fun kv => "\"" ++ kv.1 ++ "\":" ++ kv.2)) ++ "\x7d"

/-- String literal rendering (escaping does not matter for the modelled
inputs). -/
def jsonStr (s : String) : String := "\"" ++ s ++ "\""

/-- List rendered as a JSON array. -/
def jsonArr (l : List String) : String := "[" ++ String.intercalate "," l ++ "]"

/-- JSON rendering of an attribute map. -/
def jsonAttrs (ps : List (String × String)) : String :=
  jsonPairs (ps.map (fun kv => (kv.1, jsonStr kv.2)))

/-- JSON rendering of an element descriptor, in field order. -/
def ElementInfo.toJson (e : ElementInfo) : String :=
  jsonPairs
    [("selector", jsonStr e.selector), ("tagName", jsonStr e.tagName),
     ("className", jsonStr e.className), ("id", jsonStr e.idAttr),
     ("text", jsonStr e.text), ("children", toString e.children),
     ("attributes", jsonAttrs e.attrs),
     ("position", jsonPairs
        [("top", toString e.posTop), ("left", toString e.posLeft),
         ("width", toString e.width), ("height", toString e.height),
         ("inViewport", toString e.inViewport)]),
     ("visible", toString e.visible)]

/-- JSON rendering of the structure analysis. -/
def DomStructure.toJson (d : DomStructure) : String :=
  jsonPairs
    [("depth", toString d.depth), ("chatContainers", toString d.chatContainers),
     ("hasMultipleChats", toString d.hasMultipleChats),
     ("scrollableContainers", toString d.scrollableContainers)]

/-- JSON.stringify of the DOM snapshot, in field order. -/
def Snapshot.toJson (s : Snapshot) : String :=
  jsonPairs
    [("timestamp", toString s.timestamp), ("url", jsonStr s.url),
     ("title", jsonStr s.title), ("totalElements", toString s.totalElements),
     ("chatElements", jsonArr (s.chatElements.map ElementInfo.toJson)),
     ("inputElements", jsonArr (s.inputElements.map ElementInfo.toJson)),
     ("mediaElements", jsonArr (s.mediaElements.map ElementInfo.toJson)),
     ("structure", s.struct.toJson)]

/-- DeepScan.generateChecksum: the rolling 31-hash of the serialised data,
rendered in base 36 (`"0"` for the empty string). -/
def generateChecksum (s : String) : String :=
  if s.length = 0 then "0" else toBase36 (hashString s).natAbs

/-- Deep-scan result fields read by the claims. -/
structure DeepScanResult where
  scanType : String
  timestamp : Nat
  url : String
  title : String
  platform : String
  messageCount : Nat
  checksum : String
  snapshot : Snapshot
deriving Repr, DecidableEq

/-- DeepScan.performDeepScan: capture the snapshot, extract content, count
the extracted messages, and checksum the snapshot. -/
def performDeepScan (p : Page) (now : Nat) : DeepScanResult :=
  let snap := captureDOMSnapshot p now
  let msgs := extractMessages p now
  { scanType := "deep", timestamp := now, url := p.url, title := p.title,
    platform := detectPlatform p, messageCount := msgs.length,
    checksum := generateChecksum snap.toJson, snapshot := snap }

/-! ## Merge statistics (DeepScanCoordinator.js and ScanSystem.js) -/

/-- DeepScanCoordinator.calculateEfficiency: share of live messages, as a
percentage capped at 100 (0 when there are no messages at all). -/
def calculateEfficiency (deepMessages liveMessages : Nat) : ℚ :=
  let total := deepMessages + liveMessages
  if total = 0 then 0 else min ((liveMessages : ℚ) / (total : ℚ) * 100) 100

/-- Statistics block of DeepScanCoordinator.mergeScanData. -/
structure CoordMergeStats where
  totalMessages : Nat
  deepMessages : Nat
  liveMessages : Nat
  timeStart : Nat
  timeEndIso : String
  duration : ℤ
  efficiency : ℚ
deriving Repr, DecidableEq

/-- Merged result of DeepScanCoordinator.mergeScanData (fields read by the
claims). -/
structure CoordMergedResult where
  mergeId : String
  sessionId : Nat
  mergedAtIso : String
  statistics : CoordMergeStats
  platform : String
  url : String
deriving Repr, DecidableEq

/-- DeepScanCoordinator.mergeScanData applied to a loaded deep scan and the
collected live data (given by its message count). -/
def coordMergeScanData (sessionId : Nat) (deep : DeepScanResult) (liveCount : Nat)
    (now : Nat) (rnd : String) : CoordMergedResult :=
  { mergeId := "merge_" ++ toString now ++ "_" ++ rnd,
    sessionId := sessionId,
    mergedAtIso := isoString now,
    statistics :=
      { totalMessages := deep.messageCount + liveCount,
        deepMessages := deep.messageCount,
        liveMessages := liveCount,
        timeStart := deep.timestamp,
        timeEndIso := isoString now,
        duration := (now : ℤ) - (deep.timestamp : ℤ),
        efficiency := calculateEfficiency deep.messageCount liveCount },
    platform := deep.platform, url := deep.url }

/-- Statistics block of ScanSystem.mergeScanData; the message counts are
optional and default to 0 (`deepData.messageCount || 0`). -/
structure SysMergeStats where
  totalMessages : Nat
  deepMessages : Nat
  liveMessages : Nat
  timeStart : Nat
  timeEnd : String
deriving Repr, DecidableEq

/-- ScanSystem.mergeScanData statistics. -/
def sysMergeStatistics (deepCount liveCount : Option Nat) (deepTs : Nat)
    (liveEnd : Option String) (now : Nat) : SysMergeStats :=
  { totalMessages := deepCount.getD 0 + liveCount.getD 0,
    deepMessages := deepCount.getD 0,
    liveMessages := liveCount.getD 0,
    timeStart := deepTs,
    timeEnd := liveEnd.getD (isoString now) }

/-! ## Concrete instances used by the scenario claims -/

/-- A primary store of `n` records in ascending timestamp order with
pairwise distinct ids and 10 bytes of JSON each. -/
def mkRecs (n : Nat) : List Scan :=
  (List.range n).map (fun i =>
    { id := String.mk (List.replicate i 'a'), url := "u", title := "t",
      platform := "Web", timestamp := i, jsonLen := 10 })

/-- Scenario run: start a live session, deliver 51 single-fragment batches,
then stop the session. -/
def bufferFiftyOneRun : LSMState Nat :=
  let st1 := (startMonitoring lsm0 0 7).1
  let st2 := (List.range 51).foldl (fun st i => handleLiveScanData st [i] (i + 1)) st1
  (stopMonitoring st2).1

/-- A visible message-like element matching exactly one message selector. -/
def msgElem : PageElem :=
  { tagName := "LI", className := "", idAttr := "", text := "hello there",
    childCount := 0, attrs := [], posTop := 0, posLeft := 0, width := 10,
    height := 10, inViewport := true, visible := true,
    matchesSel := ["[role=\"listitem\"]"], timeAttr := none, hasMedia := false,
    userName := none, hasScroll := false, elemDepth := 0 }

/-- A page holding twelve message-like elements. -/
def page12 : Page :=
  { url := "https://example.org/chat", title := "Chat", hostname := "example.org",
    metaAppName := none, elems := List.replicate 12 msgElem, domDepth := 4,
    scrollableCount := 0 }

/-- A page with no elements at all. -/
def pageEmpty : Page :=
  { url := "https://example.org/chat", title := "T", hostname := "example.org",
    metaAppName := none, elems := [], domDepth := 3, scrollableCount := 0 }

/-- Selector-match count of a page: one per (message selector, qualifying
element) pair, before the `maxElements` cap. -/
def countMsgMatches (p : Page) : Nat :=
  (deepMessageSelectors.map (fun sel =>
    ((querySelAll p sel).filter (fun e => e.visible && decide (2 < e.text.length))).length)).sum

/-! ## Theorems -/

/-- C5: for every merge of a deep scan with live-session data, both merge
implementations (DeepScanCoordinator.mergeScanData and
ScanSystem.mergeScanData) produce statistics satisfying
`totalMessages = deepMessages + liveMessages`. -/
theorem merge_total_messages_sum (sessionId : Nat) (deep : DeepScanResult)
    (liveCount : Nat) (now : Nat) (rnd : String)
    (deepCount liveCountOpt : Option Nat) (deepTs : Nat) (liveEnd : Option String) :
    ((coordMergeScanData sessionId deep liveCount now rnd).statistics.totalMessages =
      (coordMergeScanData sessionId deep liveCount now rnd).statistics.deepMessages +
        (coordMergeScanData sessionId deep liveCount now rnd).statistics.liveMessages) ∧
    ((sysMergeStatistics deepCount liveCountOpt deepTs liveEnd now).totalMessages =
      (sysMergeStatistics deepCount liveCountOpt deepTs liveEnd now).deepMessages +
        (sysMergeStatistics deepCount liveCountOpt deepTs liveEnd now).liveMessages) :=
  ⟨rfl, rfl⟩

/-- C8 counterexample: a failing `getAll()` request makes
IndexedDBManager.getScans return the error to its caller instead of a
cache or an empty sequence, so the read path can fail the caller. -/
theorem getScans_error_propagates_counterexample :
    getScansPrimary (.error .storage) "" 100 0 = .error .storage ∧
    (getScansPrimary (.error .storage) "" 100 0).isOk = false :=
  ⟨rfl, rfl⟩

/-- C8 amended: StorageManager.getAll never fails its caller (a failed
backend read returns the cached entries and leaves the cache unchanged),
but IndexedDBManager.getScans propagates a failed query to the caller as
the same error. -/
theorem read_path_amended (e : DBErr) (q : String) (limit offset : Nat)
    (msg : String) (cache : List (String × String)) :
    getScansPrimary (.error e) q limit offset = .error e ∧
    storageGetAll (.error msg) cache = (cache, cache) :=
  ⟨rfl, rfl⟩

set_option maxRecDepth 4000 in
/-- C3 counterexample: two identities of the same fragment (identical
content, rounded DOM position and platform) computed at Date.now() values
0 and 1 differ, because generateMessageId appends the base-36 rendering of
Date.now() to the hash. -/
theorem messageId_time_dependent_counterexample :
    generateMessageId "hello world" "10_20" "Web" 0 ≠
      generateMessageId "hello world" "10_20" "Web" 1 := by decide

/-- C3 amended: for two fragments with identical 50-character content
prefix, identical rounded DOM position and identical platform tag,
generateMessageId returns the same id whenever the two identities are
computed at the same Date.now() millisecond (the id embeds that value as a
suffix, so equality is only guaranteed per tick). -/
theorem messageId_stable_same_tick (c1 c2 pos1 pos2 plat1 plat2 : String) (t : Nat)
    (hc : c1.take 50 = c2.take 50) (hp : pos1 = pos2) (hf : plat1 = plat2) :
    generateMessageId c1 pos1 plat1 t = generateMessageId c2 pos2 plat2 t := by
  simp only [generateMessageId, hc, hp, hf]

set_option maxRecDepth 4000 in
/-- C3 witness: two contents sharing their first 50 characters hash to the
same id at tick 5. -/
theorem messageId_stable_same_tick_witness :
    generateMessageId (String.mk (List.replicate 55 'a')) "3_4" "Web" 5 =
      generateMessageId (String.mk (List.replicate 50 'a' ++ ['b', 'c'])) "3_4" "Web" 5 :=
  messageId_stable_same_tick _ _ _ _ _ _ 5 (by decide) rfl rfl

/-- C4: when the primary store open fails or times out, initialisation
engages the Chrome-storage fallback: isUsingFallback reports true, every
valid storeScan call succeeds by writing through the fallback store, and
the resulting state still routes to the fallback. -/
theorem fallback_engaged_after_open_failure (o : OpenOutcome) (ho : o ≠ .success)
    (d : Scan) (hd : validateScanData d = true) (now : Nat) (rnd : String) :
    isUsingFallback (managerInit o) = true ∧
    ∃ st', storeScan (managerInit o) d now rnd =
        .ok ((sanitizeScanData d now rnd).id, st') ∧ isUsingFallback st' = true := by
  cases o with
  | success => exact absurd rfl ho
  | failure =>
    exact ⟨rfl, ⟨MgrState.mk true [] (fallbackStoreScan [] d now rnd).2,
      by simp [storeScan, hd, managerInit, fallbackStoreScan], rfl⟩⟩
  | timeout =>
    exact ⟨rfl, ⟨MgrState.mk true [] (fallbackStoreScan [] d now rnd).2,
      by simp [storeScan, hd, managerInit, fallbackStoreScan], rfl⟩⟩

/-- C4 witness: after an open timeout, a concrete valid scan is stored via
the fallback. -/
theorem fallback_engaged_after_open_failure_witness :
    isUsingFallback (managerInit .timeout) = true ∧
    ∃ st', storeScan (managerInit .timeout)
        ⟨"", "https://x", "t", "Web", 0, 40⟩ 5 "w" =
        .ok ((sanitizeScanData ⟨"", "https://x", "t", "Web", 0, 40⟩ 5 "w").id, st') ∧
      isUsingFallback st' = true :=
  fallback_engaged_after_open_failure .timeout (by decide)
    ⟨"", "https://x", "t", "Web", 0, 40⟩ (by decide) 5 "w"

/-- C6: starting a live session and buffering 51 fragments one at a time
causes exactly two flushes: one of 50 fragments when the buffer reaches
the configured maximum, and one of the remaining fragment when the session
is stopped. -/
theorem buffer_51_two_flushes :
    bufferFiftyOneRun.flushed.length = 2 ∧
    bufferFiftyOneRun.flushed.map List.length = [50, 1] := by decide

/-- Flushing does not touch the session slot. -/
lemma flushBuffer_session {α : Type} (st : LSMState α) :
    (flushBuffer st).session = st.session := by
  unfold flushBuffer
  rcases hb : st.buffer with _ | buf <;> rcases hs : st.session with _ | s <;>
    (try dsimp only) <;> (try split) <;> first | rfl | exact hs

/-- Buffering does not touch the session slot. -/
lemma bufferMessages_session {α : Type} (st : LSMState α) (msgs : List α) :
    (bufferMessages st msgs).session = st.session := by
  unfold bufferMessages
  split
  · rw [flushBuffer_session]
  · rfl

/-- Cleanup always leaves the tab without an in-memory session. -/
lemma cleanupSession_session_eq_none {α : Type} (st : LSMState α) :
    (cleanupSession st).session = none := by
  unfold cleanupSession
  cases h : st.session with
  | none => exact h
  | some s => rfl

/-- Incoming data either leaves the session slot unchanged or refreshes
the activity fields of the existing session. -/
lemma handleLiveScanData_session {α : Type} (st : LSMState α) (msgs : List α) (now : Nat) :
    (handleLiveScanData st msgs now).session = st.session ∨
    ∃ s : Session, st.session = some s ∧
      (handleLiveScanData st msgs now).session =
        some (refreshedSession s msgs.length now) := by
  unfold handleLiveScanData
  cases hs : st.session with
  | none => left; exact hs
  | some s =>
    by_cases ha : s.status = SessStatus.active
    · right
      refine ⟨s, rfl, ?_⟩
      dsimp only
      simp only [ha, if_true]
      split
      · exact bufferMessages_session _ _
      · exact bufferMessages_session _ _
    · left
      dsimp only
      simp only [ha, if_false]
      exact hs

/-- The restore path either leaves the session slot unchanged or reloads a
persisted ACTIVE session. -/
lemma restoreSessions_session {α : Type} (st : LSMState α) (now : Nat) :
    (restoreSessions st now).session = st.session ∨
    ∃ s : Session, st.savedSession = some s ∧ s.status = SessStatus.active ∧
      (restoreSessions st now).session = some s := by
  unfold restoreSessions
  cases hv : st.savedSession with
  | none => left; rfl
  | some s =>
    by_cases ha : s.status = SessStatus.active
    · by_cases hage : now - s.lastActivity < SESSION_MAX_AGE_MS
      · right
        refine ⟨s, rfl, ha, ?_⟩
        simp [ha, hage]
      · left; simp [ha, hage]
    · left; simp [ha]

/-- The idle sweep either removes the session or leaves the slot alone. -/
lemma cleanupInactiveSessions_session {α : Type} (st : LSMState α) (now : Nat) :
    (cleanupInactiveSessions st now).session = none ∨
    (cleanupInactiveSessions st now).session = st.session := by
  unfold cleanupInactiveSessions
  cases hs : st.session with
  | none => right; exact hs
  | some s =>
    dsimp only
    split
    · left; exact cleanupSession_session_eq_none st
    · right; exact hs

/-- C7 counterexample: stopping a session that has already been stopped is
a state no-op but returns `{success := true}`, not `{success := false}` as
the claim states (LiveScanManager.stopMonitoring returns `{success: true}`
unconditionally, whether or not a session exists). -/
theorem double_stop_returns_success_counterexample :
    (stopMonitoring (stopMonitoring (startMonitoring lsm0 0 1).1).1).2.success = true ∧
    (stopMonitoring (stopMonitoring (startMonitoring lsm0 0 1).1).1).1 =
      (stopMonitoring (startMonitoring lsm0 0 1).1).1 := by decide

/-- C7 amended: stop after stop is a state no-op but returns
`{success := true}` rather than `{success := false}`; the transition
discipline of the claim does hold: an in-memory session only ever comes
into existence with status ACTIVE, and in-memory sessions stay ACTIVE
until removed (the terminal STOPPED and EXPIRED statuses exist only in the
persisted copy, reached from ACTIVE by stop or idle expiry and by stale
restore respectively), so start→stop and start→expire are the only
terminal paths and ACTIVE is never skipped. -/
theorem session_transitions_amended {α : Type} :
    (∀ st : LSMState α,
        (stopMonitoring (stopMonitoring st).1).1 = (stopMonitoring st).1 ∧
        (stopMonitoring (stopMonitoring st).1).2.success = true) ∧
    (∀ (st : LSMState α) (e : LSEvent α), sessionStatus st = none →
        sessionStatus (lsmStep st e) = none ∨
          sessionStatus (lsmStep st e) = some .active) ∧
    (∀ (st : LSMState α) (e : LSEvent α),
        (∀ x, st.session = some x → x.status = .active) →
        ∀ y, (lsmStep st e).session = some y → y.status = .active) := by
  refine ⟨fun st => ⟨?_, rfl⟩, fun st e h => ?_, fun st e h y hy => ?_⟩
  · obtain ⟨ca, ss, bf, fl, sv⟩ := st
    cases ss <;> cases bf
    all_goals simp only [stopMonitoring, cleanupSession, flushBuffer]
    all_goals ((try split) <;> rfl)
  · have hs : st.session = none := by
      unfold sessionStatus at h
      cases hss : st.session with
      | none => rfl
      | some s => rw [hss] at h; simp at h
    cases e with
    | start now sid => right; rfl
    | dataBatch msgs now =>
      left
      unfold sessionStatus lsmStep
      rcases handleLiveScanData_session st msgs now with hcase | ⟨s, hcase, _⟩
      · rw [hcase, hs]; rfl
      · rw [hcase] at hs; cases hs
    | stop =>
      left
      unfold sessionStatus lsmStep stopMonitoring
      rw [cleanupSession_session_eq_none]
      rfl
    | idleSweep now =>
      left
      unfold sessionStatus lsmStep
      rcases cleanupInactiveSessions_session st now with hcase | hcase
      · rw [hcase]; rfl
      · rw [hcase, hs]; rfl
    | restore now =>
      unfold sessionStatus lsmStep
      rcases restoreSessions_session st now with hcase | ⟨s, _, ha, hcase⟩
      · left; rw [hcase, hs]; rfl
      · right; rw [hcase]; simp [ha]
  · cases e with
    | start now sid =>
      have hsess : (lsmStep st (.start now sid)).session =
          some ⟨sid, now, 0, now, .active⟩ := rfl
      rw [hsess] at hy
      cases hy
      rfl
    | dataBatch msgs now =>
      rcases handleLiveScanData_session st msgs now with hcase | ⟨s, hsome, hcase⟩
      · have hy2 : (handleLiveScanData st msgs now).session = some y := hy
        rw [hcase] at hy2
        exact h y hy2
      · have hy2 : (handleLiveScanData st msgs now).session = some y := hy
        rw [hcase] at hy2
        cases hy2
        exact h s hsome
    | stop =>
      have : (lsmStep st .stop).session = none := cleanupSession_session_eq_none _
      rw [this] at hy
      cases hy
    | idleSweep now =>
      rcases cleanupInactiveSessions_session st now with hcase | hcase
      · have : (lsmStep st (.idleSweep now)).session = none := hcase
        rw [this] at hy
        cases hy
      · have : (lsmStep st (.idleSweep now)).session = st.session := hcase
        rw [this] at hy
        exact h y hy
    | restore now =>
      rcases restoreSessions_session st now with hcase | ⟨s, _, ha, hcase⟩
      · have : (lsmStep st (.restore now)).session = st.session := hcase
        rw [this] at hy
        exact h y hy
      · have : (lsmStep st (.restore now)).session = some s := hcase
        rw [this] at hy
        cases hy
        exact ha

/-- C7 witness: from an empty tab, a start event yields either no session
or an ACTIVE one. -/
theorem session_transitions_amended_witness :
    sessionStatus (lsmStep lsm0 (.start 0 1)) = none ∨
      sessionStatus (lsmStep lsm0 (.start 0 1)) = some .active :=
  (session_transitions_amended (α := Nat)).2.1 lsm0 (.start 0 1) rfl

/-- C10: in fallback mode every valid storeScan call appends one new
record to the fallback list with no duplicate check: the call succeeds
with the id of the freshly sanitised record (never an existing id), the
list grows by one (even when an identical record is already present,
since no condition on the store contents is required), and the new list is
exactly the old records plus the new one, re-sorted newest first and
capped at 500. -/
theorem fallback_no_dedup (p fb : List Scan) (d : Scan) (now : Nat) (rnd : String)
    (hv : validateScanData d = true) (hlen : fb.length < FALLBACK_CAP) :
    ∃ st' : MgrState,
      storeScan ⟨true, p, fb⟩ d now rnd = .ok ((sanitizeScanData d now rnd).id, st') ∧
      st'.fallback.length = fb.length + 1 ∧
      sanitizeScanData d now rnd ∈ st'.fallback ∧
      st'.fallback.Perm (fb ++ [sanitizeScanData d now rnd]) ∧
      List.Sorted tsGe st'.fallback ∧
      st'.useFallback = true := by
  have hperm : List.Perm (sortTsDesc (fb ++ [sanitizeScanData d now rnd]))
      (fb ++ [sanitizeScanData d now rnd]) := List.perm_insertionSort tsGe _
  have hlen2 : (sortTsDesc (fb ++ [sanitizeScanData d now rnd])).length = fb.length + 1 := by
    rw [hperm.length_eq, List.length_append, List.length_singleton]
  have htake : (sortTsDesc (fb ++ [sanitizeScanData d now rnd])).take FALLBACK_CAP =
      sortTsDesc (fb ++ [sanitizeScanData d now rnd]) := by
    apply List.take_of_length_le
    omega
  refine ⟨MgrState.mk true p ((sortTsDesc (fb ++ [sanitizeScanData d now rnd])).take FALLBACK_CAP),
    ?_, ?_, ?_, ?_, ?_, rfl⟩
  · simp [storeScan, hv, fallbackStoreScan]
  · rw [htake, hlen2]
  · rw [htake, hperm.mem_iff]
    simp
  · rw [htake]
    exact hperm
  · rw [htake]
    exact List.sorted_insertionSort tsGe _

/-- C10 witness: a record identical to one already stored moments earlier
is still appended (no deduplication in the fallback store). -/
theorem fallback_no_dedup_witness :
    ∃ st' : MgrState,
      storeScan ⟨true, [], [⟨"scan_9", "https://x", "t", "Web", 7, 20⟩]⟩
          ⟨"scan_9", "https://x", "t", "Web", 7, 20⟩ 100 "w" =
        .ok ((sanitizeScanData ⟨"scan_9", "https://x", "t", "Web", 7, 20⟩ 100 "w").id, st') ∧
      st'.fallback.length = [(⟨"scan_9", "https://x", "t", "Web", 7, 20⟩ : Scan)].length + 1 ∧
      sanitizeScanData ⟨"scan_9", "https://x", "t", "Web", 7, 20⟩ 100 "w" ∈ st'.fallback ∧
      st'.fallback.Perm ([⟨"scan_9", "https://x", "t", "Web", 7, 20⟩] ++
        [sanitizeScanData ⟨"scan_9", "https://x", "t", "Web", 7, 20⟩ 100 "w"]) ∧
      List.Sorted tsGe st'.fallback ∧
      st'.useFallback = true :=
  fallback_no_dedup [] [⟨"scan_9", "https://x", "t", "Web", 7, 20⟩]
    ⟨"scan_9", "https://x", "t", "Web", 7, 20⟩ 100 "w" (by decide) (by decide)

unseal Rat.mul Rat.inv in
/-- C2 counterexample: two scans with the same url written 99 seconds
apart (well inside the 30-minute window) whose titles have Jaccard
similarity exactly 0.8: the claim requires the second storeScan call to
return the already-stored record id, but isSubstantialDuplicate demands
similarity strictly greater than 0.8, so the code stores a second record
and returns its freshly generated id instead. -/
theorem dedup_similarity_boundary_counterexample :
    calculateSimilarity "a b c d" "a b c d e" = 8 / 10 ∧
    ((100 : ℤ) - ((1 : Nat) : ℤ) < (DUPLICATE_TTL_MS : ℤ)) ∧
    storeScan ⟨false, [⟨"scan_1", "https://x", "a b c d", "Web", 1, 100⟩], []⟩
        ⟨"", "https://x", "a b c d e", "Web", 0, 100⟩ 100 "r" =
      .ok ("scan_100_r",
        ⟨false, [⟨"scan_1", "https://x", "a b c d", "Web", 1, 100⟩,
                 ⟨"scan_100_r", "https://x", "a b c d e", "Web", 100, 100⟩], []⟩) :=
  ⟨by decide, by decide, by rfl⟩

/-- C2 amended: for a pair of scan records sharing the same (non-empty)
URL, written less than 30 minutes apart, with both titles present and
title similarity strictly greater than 0.8, the second storeScan call
returns the id of the already-stored record and creates no new record
(the store is returned unchanged). -/
theorem dedup_window_amended (r1 d : Scan) (fbl : List Scan) (now : Nat) (rnd : String)
    (hurl : d.url = r1.url) (hu : d.url ≠ "")
    (ht1 : r1.title ≠ "") (ht2 : d.title ≠ "")
    (hwin : (now : ℤ) - (r1.timestamp : ℤ) < (DUPLICATE_TTL_MS : ℤ))
    (hsim : 8 / 10 < calculateSimilarity r1.title d.title)
    (hv : validateScanData d = true) :
    storeScan ⟨false, [r1], fbl⟩ d now rnd = .ok (r1.id, ⟨false, [r1], fbl⟩) := by
  have hfilter : [r1].filter (fun s => s.url == d.url) = [r1] := by
    simp [hurl]
  have hsub : isSubstantialDuplicate r1 d = true := by
    unfold isSubstantialDuplicate
    rw [if_neg (fun hne => hne hurl.symm), if_pos ⟨ht1, ht2⟩]
    exact decide_eq_true hsim
  have hpred : (decide ((now : ℤ) - (r1.timestamp : ℤ) < (DUPLICATE_TTL_MS : ℤ)) &&
      isSubstantialDuplicate r1 d) = true := by
    rw [hsub, decide_eq_true hwin]
    rfl
  have hdup : checkForDuplicate [r1] d now = some r1.id := by
    unfold checkForDuplicate getScansByUrl
    rw [if_neg hu, hfilter]
    simp [sortTsDesc, List.insertionSort, List.orderedInsert, hpred]
  simp [storeScan, hv, hdup]

unseal Rat.mul Rat.inv in
/-- C2 witness: a same-url rewrite with an identical title (similarity 1)
written 99 seconds later returns the stored id and leaves the store
unchanged. -/
theorem dedup_window_amended_witness :
    storeScan ⟨false, [⟨"scan_1", "https://x", "alpha beta gamma", "Web", 1, 100⟩], []⟩
        ⟨"", "https://x", "alpha beta gamma", "Web", 0, 100⟩ 100 "r" =
      .ok ("scan_1",
        ⟨false, [⟨"scan_1", "https://x", "alpha beta gamma", "Web", 1, 100⟩], []⟩) :=
  dedup_window_amended _ _ [] 100 "r" rfl (by decide) (by decide) (by decide)
    (by decide) (by decide) (by decide)

/-- Peeling lemma for the rolling hash: hashing an appended string
continues the fold from the hash of the first part. -/
lemma hashString_append (s t : String) :
    hashString (s ++ t) =
      t.data.foldl (fun h ch => hashStep h ch.toNat) (hashString s) := by
  unfold hashString
  rw [String.data_append, List.foldl_append]

set_option maxRecDepth 4000 in
/-- C9 counterexample: two successive deep scans of the same unmodified
page, captured at Date.now() values 0 and 1, produce different checksums:
captureDOMSnapshot embeds Date.now() in the snapshot and generateChecksum
hashes the serialised snapshot, so the checksum is not deterministic
across scans at different milliseconds. -/
theorem checksum_time_counterexample :
    (performDeepScan pageEmpty 0).checksum ≠ (performDeepScan pageEmpty 1).checksum := by
  have c0a1 : hashString "\x7b\"timestamp\":0,\"url\":\"https://example.or" = -506081296 := by decide
  have c0a2 : hashString ("\x7b\"timestamp\":0,\"url\":\"https://example.or" ++ "g/chat\",\"title\":\"T\",\"totalElements\":0,\"c") = -26690734 := by
    rw [hashString_append, c0a1]; decide
  have c0a3 : hashString (("\x7b\"timestamp\":0,\"url\":\"https://example.or" ++ "g/chat\",\"title\":\"T\",\"totalElements\":0,\"c") ++ "hatElements\":[],\"inputElements\":[],\"medi") = -685470306 := by
    rw [hashString_append, c0a2]; decide
  have c0a4 : hashString ((("\x7b\"timestamp\":0,\"url\":\"https://example.or" ++ "g/chat\",\"title\":\"T\",\"totalElements\":0,\"c") ++ "hatElements\":[],\"inputElements\":[],\"medi") ++ "aElements\":[],\"structure\":\x7b\"depth\":3,\"ch") = -625794725 := by
    rw [hashString_append, c0a3]; decide
  have c0a5 : hashString (((("\x7b\"timestamp\":0,\"url\":\"https://example.or" ++ "g/chat\",\"title\":\"T\",\"totalElements\":0,\"c") ++ "hatElements\":[],\"inputElements\":[],\"medi") ++ "aElements\":[],\"structure\":\x7b\"depth\":3,\"ch") ++ "atContainers\":0,\"hasMultipleChats\":false") = -1805200724 := by
    rw [hashString_append, c0a4]; decide
  have c0a6 : hashString ((((("\x7b\"timestamp\":0,\"url\":\"https://example.or" ++ "g/chat\",\"title\":\"T\",\"totalElements\":0,\"c") ++ "hatElements\":[],\"inputElements\":[],\"medi") ++ "aElements\":[],\"structure\":\x7b\"depth\":3,\"ch") ++ "atContainers\":0,\"hasMultipleChats\":false") ++ ",\"scrollableContainers\":0\x7d\x7d") = -1189868515 := by
    rw [hashString_append, c0a5]; decide
  have c0h : hashString "\x7b\"timestamp\":0,\"url\":\"https://example.org/chat\",\"title\":\"T\",\"totalElements\":0,\"chatElements\":[],\"inputElements\":[],\"mediaElements\":[],\"structure\":\x7b\"depth\":3,\"chatContainers\":0,\"hasMultipleChats\":false,\"scrollableContainers\":0\x7d\x7d" = -1189868515 := by
    rw [show "\x7b\"timestamp\":0,\"url\":\"https://example.org/chat\",\"title\":\"T\",\"totalElements\":0,\"chatElements\":[],\"inputElements\":[],\"mediaElements\":[],\"structure\":\x7b\"depth\":3,\"chatContainers\":0,\"hasMultipleChats\":false,\"scrollableContainers\":0\x7d\x7d" = ((((("\x7b\"timestamp\":0,\"url\":\"https://example.or" ++ "g/chat\",\"title\":\"T\",\"totalElements\":0,\"c") ++ "hatElements\":[],\"inputElements\":[],\"medi") ++ "aElements\":[],\"structure\":\x7b\"depth\":3,\"ch") ++ "atContainers\":0,\"hasMultipleChats\":false") ++ ",\"scrollableContainers\":0\x7d\x7d") from by decide]; exact c0a6
  have c1a1 : hashString "\x7b\"timestamp\":1,\"url\":\"https://example.or" = 455532721 := by decide
  have c1a2 : hashString ("\x7b\"timestamp\":1,\"url\":\"https://example.or" ++ "g/chat\",\"title\":\"T\",\"totalElements\":0,\"c") = -634767597 := by
    rw [hashString_append, c1a1]; decide
  have c1a3 : hashString (("\x7b\"timestamp\":1,\"url\":\"https://example.or" ++ "g/chat\",\"title\":\"T\",\"totalElements\":0,\"c") ++ "hatElements\":[],\"inputElements\":[],\"medi") = 391083103 := by
    rw [hashString_append, c1a2]; decide
  have c1a4 : hashString ((("\x7b\"timestamp\":1,\"url\":\"https://example.or" ++ "g/chat\",\"title\":\"T\",\"totalElements\":0,\"c") ++ "hatElements\":[],\"inputElements\":[],\"medi") ++ "aElements\":[],\"structure\":\x7b\"depth\":3,\"ch") = 339768092 := by
    rw [hashString_append, c1a3]; decide
  have c1a5 : hashString (((("\x7b\"timestamp\":1,\"url\":\"https://example.or" ++ "g/chat\",\"title\":\"T\",\"totalElements\":0,\"c") ++ "hatElements\":[],\"inputElements\":[],\"medi") ++ "aElements\":[],\"structure\":\x7b\"depth\":3,\"ch") ++ "atContainers\":0,\"hasMultipleChats\":false") = 793743213 := by
    rw [hashString_append, c1a4]; decide
  have c1a6 : hashString ((((("\x7b\"timestamp\":1,\"url\":\"https://example.or" ++ "g/chat\",\"title\":\"T\",\"totalElements\":0,\"c") ++ "hatElements\":[],\"inputElements\":[],\"medi") ++ "aElements\":[],\"structure\":\x7b\"depth\":3,\"ch") ++ "atContainers\":0,\"hasMultipleChats\":false") ++ ",\"scrollableContainers\":0\x7d\x7d") = -1674813764 := by
    rw [hashString_append, c1a5]; decide
  have c1h : hashString "\x7b\"timestamp\":1,\"url\":\"https://example.org/chat\",\"title\":\"T\",\"totalElements\":0,\"chatElements\":[],\"inputElements\":[],\"mediaElements\":[],\"structure\":\x7b\"depth\":3,\"chatContainers\":0,\"hasMultipleChats\":false,\"scrollableContainers\":0\x7d\x7d" = -1674813764 := by
    rw [show "\x7b\"timestamp\":1,\"url\":\"https://example.org/chat\",\"title\":\"T\",\"totalElements\":0,\"chatElements\":[],\"inputElements\":[],\"mediaElements\":[],\"structure\":\x7b\"depth\":3,\"chatContainers\":0,\"hasMultipleChats\":false,\"scrollableContainers\":0\x7d\x7d" = ((((("\x7b\"timestamp\":1,\"url\":\"https://example.or" ++ "g/chat\",\"title\":\"T\",\"totalElements\":0,\"c") ++ "hatElements\":[],\"inputElements\":[],\"medi") ++ "aElements\":[],\"structure\":\x7b\"depth\":3,\"ch") ++ "atContainers\":0,\"hasMultipleChats\":false") ++ ",\"scrollableContainers\":0\x7d\x7d") from by decide]; exact c1a6
  have e0 : (performDeepScan pageEmpty 0).checksum = toBase36 (Int.natAbs (-1189868515)) := by
    show generateChecksum (captureDOMSnapshot pageEmpty 0).toJson = _
    rw [show (captureDOMSnapshot pageEmpty 0).toJson = "\x7b\"timestamp\":0,\"url\":\"https://example.org/chat\",\"title\":\"T\",\"totalElements\":0,\"chatElements\":[],\"inputElements\":[],\"mediaElements\":[],\"structure\":\x7b\"depth\":3,\"chatContainers\":0,\"hasMultipleChats\":false,\"scrollableContainers\":0\x7d\x7d" from by decide]
    unfold generateChecksum
    rw [if_neg (by decide), c0h]
  have e1 : (performDeepScan pageEmpty 1).checksum = toBase36 (Int.natAbs (-1674813764)) := by
    show generateChecksum (captureDOMSnapshot pageEmpty 1).toJson = _
    rw [show (captureDOMSnapshot pageEmpty 1).toJson = "\x7b\"timestamp\":1,\"url\":\"https://example.org/chat\",\"title\":\"T\",\"totalElements\":0,\"chatElements\":[],\"inputElements\":[],\"mediaElements\":[],\"structure\":\x7b\"depth\":3,\"chatContainers\":0,\"hasMultipleChats\":false,\"scrollableContainers\":0\x7d\x7d" from by decide]
    unfold generateChecksum
    rw [if_neg (by decide), c1h]
  rw [e0, e1]
  decide

/-- C9 amended: on a page whose message-like elements produce exactly 12
(selector, element) matches — 12 extractable elements each matching one
message selector — every deep scan reports `messageCount = 12`, the count
agrees between two successive scans, and the checksum agrees between two
scans exactly when they capture at the same Date.now() millisecond (the
snapshot embeds the capture time, so equal capture times are required). -/
theorem deepscan_count_checksum_amended (p : Page) (t1 t2 : Nat)
    (h12 : countMsgMatches p = 12) :
    (performDeepScan p t1).messageCount = 12 ∧
    (performDeepScan p t1).messageCount = (performDeepScan p t2).messageCount ∧
    (t1 = t2 → (performDeepScan p t1).checksum = (performDeepScan p t2).checksum) := by
  have hcount : ∀ t : Nat, (performDeepScan p t).messageCount = 12 := by
    intro t
    show (extractMessages p t).length = 12
    unfold extractMessages
    rw [List.length_take, List.length_flatMap]
    have hsum : (List.map (List.length ∘ fun sel =>
        ((querySelAll p sel).filter (fun e => e.visible && decide (2 < e.text.length))).map
          (fun e =>
            ({ text := e.text.take DEEP_TEXT_LIMIT, originalLength := e.text.length,
               element := sel, timestampStr := e.timeAttr.getD (isoString t),
               hasMedia := e.hasMedia, user := e.userName } : DeepMessage)))
          deepMessageSelectors).sum = countMsgMatches p := by
      unfold countMsgMatches
      congr 1
      apply List.map_congr_left
      intro sel _
      simp
    rw [hsum, h12]
    decide
  exact ⟨hcount t1, (hcount t1).trans (hcount t2).symm, fun h => by rw [h]⟩

/-- C9 witness: a page of 12 message-like elements, each matching exactly
one message selector, scanned at ticks 3 and 9. -/
theorem deepscan_count_checksum_amended_witness :
    (performDeepScan page12 3).messageCount = 12 ∧
    (performDeepScan page12 3).messageCount = (performDeepScan page12 9).messageCount ∧
    (3 = 9 → (performDeepScan page12 3).checksum = (performDeepScan page12 9).checksum) :=
  deepscan_count_checksum_amended page12 3 9 (by decide)

/-- Ids of a prefix and the matching suffix are disjoint when all record
ids are pairwise distinct. -/
lemma take_drop_id_disjoint (l : List Scan) (k : Nat) (h : (l.map Scan.id).Nodup) :
    ((l.take k).map Scan.id).Disjoint ((l.drop k).map Scan.id) := by
  have h2 : ((l.take k ++ l.drop k).map Scan.id).Nodup := by
    rw [List.take_append_drop]
    exact h
  rw [List.map_append] at h2
  exact (List.nodup_append.mp h2).2.2

/-- Deleting by id the records of `l.drop k` from `l` keeps exactly
`l.take k`, provided the record ids are pairwise distinct. -/
lemma filter_not_dropped_eq_take (l : List Scan) (k : Nat)
    (h : (l.map Scan.id).Nodup) :
    l.filter (fun s => !(((l.drop k).map Scan.id).contains s.id)) = l.take k := by
  have hdisj := take_drop_id_disjoint l k h
  set dels := (l.drop k).map Scan.id with hdels
  conv_lhs => rw [← List.take_append_drop k l]
  rw [List.filter_append]
  have h1 : (l.take k).filter (fun s => !(dels.contains s.id)) = l.take k := by
    apply List.filter_eq_self.mpr
    intro a ha
    have hnotin : a.id ∉ dels := fun hin =>
      hdisj (List.mem_map_of_mem Scan.id ha) (hdels ▸ hin)
    simpa using hnotin
  have h2 : (l.drop k).filter (fun s => !(dels.contains s.id)) = [] := by
    rw [List.filter_eq_nil_iff]
    intro a ha
    have hin : a.id ∈ dels := hdels ▸ List.mem_map_of_mem Scan.id ha
    simpa using hin
  rw [h1, h2, List.append_nil]

/-- Cleanup with the default 30 percent ratio on a 1200-record store in
ascending index order keeps the 840 oldest records and deletes the 360
newest ones. -/
lemma cleanup_1200 (l : List Scan) (hs : List.Sorted tsLe l)
    (hn : (l.map Scan.id).Nodup) (hlen : l.length = 1200) :
    cleanupOldRecords l (3 / 10) = (l.take 840, 360) := by
  have hsort : sortTsAsc l = l := List.Sorted.insertionSort_eq hs
  have hkeep : cleanupKeepCount 1200 (3 / 10) = 840 := by
    unfold cleanupKeepCount
    rw [show ((1200 : Nat) : ℚ) * (1 - 3 / 10) = ((840 : Nat) : ℚ) by norm_num]
    rw [Int.floor_natCast]
    rfl
  unfold cleanupOldRecords
  rw [hsort, hlen, hkeep, if_neg (by norm_num [CLEANUP_THRESHOLD])]
  rw [filter_not_dropped_eq_take l 840 hn, List.length_drop, hlen]

/-- The estimated database size is at most the total JSON size of the
store (the estimate reads at most 1000 records). -/
lemma estimateDBSize_le_sum (l : List Scan) :
    estimateDBSize l ≤ (l.map Scan.jsonLen).sum := by
  unfold estimateDBSize getScansResult
  rw [if_pos rfl, List.drop_zero]
  have hperm : List.Perm (sortTsDesc l) l := List.perm_insertionSort tsGe l
  have hsum : ((sortTsDesc l).map Scan.jsonLen).sum = (l.map Scan.jsonLen).sum :=
    (hperm.map Scan.jsonLen).sum_eq
  calc (((sortTsDesc l).take 1000).map Scan.jsonLen).sum
      ≤ ((sortTsDesc l).map Scan.jsonLen).sum := by
        conv_rhs => rw [← List.take_append_drop 1000 (sortTsDesc l)]
        rw [List.map_append, List.sum_append]
        exact Nat.le_add_right _ _
    _ = (l.map Scan.jsonLen).sum := hsum

/-- Maintenance on a 1200-record store in ascending index order whose
remaining records stay under the size threshold keeps exactly the 840
oldest records. -/
lemma maintenance_1200 (l : List Scan) (hs : List.Sorted tsLe l)
    (hn : (l.map Scan.id).Nodup) (hlen : l.length = 1200)
    (hsize : ((l.take 840).map Scan.jsonLen).sum ≤ MAX_DB_SIZE * 4 / 5) :
    performMaintenance l = l.take 840 := by
  have hstep1 : maintStep1 l = l.take 840 := by
    unfold maintStep1
    rw [if_pos (by rw [hlen]; norm_num [CLEANUP_THRESHOLD]), cleanup_1200 l hs hn hlen]
  unfold performMaintenance
  rw [hstep1, if_neg (Nat.not_lt.mpr (Nat.le_trans (estimateDBSize_le_sum _) hsize))]

/-- The store of `n` synthetic records has `n` records. -/
lemma mkRecs_length (n : Nat) : (mkRecs n).length = n := by simp [mkRecs]

/-- The synthetic store is in ascending timestamp order. -/
lemma mkRecs_sorted (n : Nat) : List.Sorted tsLe (mkRecs n) :=
  List.pairwise_map.mpr (List.sorted_le_range n)

/-- The synthetic store has pairwise distinct ids. -/
lemma mkRecs_id_nodup (n : Nat) : ((mkRecs n).map Scan.id).Nodup := by
  unfold mkRecs
  rw [List.map_map]
  refine (List.nodup_range n).map ?_
  intro a b hab
  have hlen : (List.replicate a 'a').length = (List.replicate b 'a').length := by
    have := congrArg (fun st : String => st.data.length) hab
    simpa using this
  simpa using hlen

/-- Every synthetic record reports 10 bytes of JSON. -/
lemma mkRecs_jsonLen (n : Nat) : (mkRecs n).map Scan.jsonLen = List.replicate n 10 := by
  unfold mkRecs
  rw [List.map_map]
  rw [show ((Scan.jsonLen ∘ fun i : Nat =>
      ({ id := String.mk (List.replicate i 'a'), url := "u", title := "t",
         platform := "Web", timestamp := i, jsonLen := 10 } : Scan))) =
      fun _ : Nat => (10 : Nat) from rfl]
  rw [List.map_const', List.length_range]

/-- The 840 records kept from the synthetic 1200-record store stay far
below the size threshold. -/
lemma mkRecs_size_bound :
    (((mkRecs 1200).take 840).map Scan.jsonLen).sum ≤ MAX_DB_SIZE * 4 / 5 := by
  rw [List.map_take, mkRecs_jsonLen, List.take_replicate, List.sum_const_nat]
  norm_num [MAX_DB_SIZE]

/-- C1 counterexample: on a primary store of 1200 records with distinct
ids, ascending timestamps 0..1199 and 10 bytes of JSON each, maintain()
leaves 840 records (not at most 700: `Math.floor(1200 * 0.7)` records are
kept), and the deleted records are the NEWEST 360 by timestamp: the record
with timestamp 1199 — far above the 70th percentile — is present before
maintenance and gone afterwards, while cleanupOldRecords claims in its own
comment to keep the newest records.  The sweep deletes
`scans.slice(keepCount)` of the ASCENDING index order, which is the newest
suffix. -/
theorem maintain_1200_counterexample :
    ¬((performMaintenance (mkRecs 1200)).length ≤ 700) ∧
    (⟨String.mk (List.replicate 1199 'a'), "u", "t", "Web", 1199, 10⟩ : Scan) ∈ mkRecs 1200 ∧
    (⟨String.mk (List.replicate 1199 'a'), "u", "t", "Web", 1199, 10⟩ : Scan) ∉
      performMaintenance (mkRecs 1200) := by
  have hm := maintenance_1200 (mkRecs 1200) (mkRecs_sorted 1200) (mkRecs_id_nodup 1200)
    (mkRecs_length 1200) mkRecs_size_bound
  refine ⟨?_, ?_, ?_⟩
  · rw [hm, List.length_take, mkRecs_length]
    omega
  · unfold mkRecs
    exact List.mem_map.mpr ⟨1199, List.mem_range.mpr (by omega), rfl⟩
  · intro hmem
    rw [hm] at hmem
    unfold mkRecs at hmem
    rw [← List.map_take, List.take_range] at hmem
    obtain ⟨i, hi, heq⟩ := List.mem_map.mp hmem
    have hts : i = 1199 := congrArg Scan.timestamp heq
    rw [List.mem_range] at hi
    omega

/-- C1 amended: after maintain() on a 1200-record store in ascending
timestamp-index order (threshold 1000, estimated size under the limit),
the record count is 840 = `Math.floor(1200 * (1 - 0.3))` rather than at
most 700, the kept records are the OLDEST 840, and every record in the
newest 30 percent — everything above the 70th percentile position by
timestamp — is removed. -/
theorem maintain_1200_amended (l : List Scan) (hs : List.Sorted tsLe l)
    (hn : (l.map Scan.id).Nodup) (hlen : l.length = 1200)
    (hsize : ((l.take 840).map Scan.jsonLen).sum ≤ MAX_DB_SIZE * 4 / 5) :
    performMaintenance l = l.take 840 ∧
    (performMaintenance l).length = 840 ∧
    ∀ s ∈ l.drop 840, s ∉ performMaintenance l := by
  have hm := maintenance_1200 l hs hn hlen hsize
  refine ⟨hm, ?_, ?_⟩
  · rw [hm, List.length_take, hlen]
    omega
  · intro s hsd hmem
    rw [hm] at hmem
    exact take_drop_id_disjoint l 840 hn
      (List.mem_map_of_mem Scan.id hmem) (List.mem_map_of_mem Scan.id hsd)

/-- C1 witness: the synthetic 1200-record store. -/
theorem maintain_1200_amended_witness :
    performMaintenance (mkRecs 1200) = (mkRecs 1200).take 840 ∧
    (performMaintenance (mkRecs 1200)).length = 840 ∧
    ∀ s ∈ (mkRecs 1200).drop 840, s ∉ performMaintenance (mkRecs 1200) :=
  maintain_1200_amended (mkRecs 1200) (mkRecs_sorted 1200) (mkRecs_id_nodup 1200)
    (mkRecs_length 1200) mkRecs_size_bound

end ChatSavePro
